import Mathlib

/-!
Verification development for the CredAnalyzer backend document pipeline.

The Python source (app/main.py, app/utils.py, app/docling_wrapper.py) is
shallowly embedded: Python `str` becomes `String` or `List Char`, pandas
DataFrames become lists of rows of optional cell strings (a `none` cell is
a NaN), Python `float` values produced by the Brazilian-locale parser are
modelled as exact rationals (the code only parses decimal literals and adds
two of them, so no floating-point rounding is observable in the claims),
and Python exceptions are modelled with `Except`/`Option`.  External
collaborators (camelot, PyPDF2, pdf2image, tiktoken, the OpenAI client)
enter as explicit inputs: the grid, the raw text, the tokenizer pair and
the call outcomes are parameters of the embedded functions.
-/

deriving instance DecidableEq for Except

namespace CredAnalyzer

/-- ASCII decimal digit test, modelling Python's regex class matching a digit
on the ASCII inputs this pipeline handles. -/
def ehDigito (c : Char) : Bool := '0' ≤ c && c ≤ '9'

/-- ASCII whitespace test, modelling the characters Python's regex whitespace
class and `str.strip` treat as space on ASCII input. -/
def ehEspaco (c : Char) : Bool :=
  c == ' ' || c == '\t' || c == '\n' || c == '\r' || c == '\x0b' || c == '\x0c'

/-- `comecaL s pat` decides whether `pat` is an initial segment of `s`. -/
def comecaL : List Char → List Char → Bool
  | _, [] => true
  | [], _ :: _ => false
  | c :: cs, p :: ps => c == p && comecaL cs ps

/-- `contemL s pat` decides Python's substring test `pat in s`. -/
def contemL : List Char → List Char → Bool
  | [], pat => pat.isEmpty
  | s@(_ :: t), pat => comecaL s pat || contemL t pat

/-- Python's `pat in s` on strings. -/
def contem (s pat : String) : Bool := contemL s.data pat.data

/-- Python's `str.lower()`, restricted to the ASCII case mapping (all the
filenames checked by the classifier are ASCII). -/
def pyLower (s : String) : String := String.mk (s.data.map Char.toLower)

/-- Python's `str.strip()` on ASCII whitespace. -/
def pyStrip (s : String) : String :=
  String.mk (((s.data.dropWhile ehEspaco).reverse.dropWhile ehEspaco).reverse)

/-- Index of the first occurrence of `pat` in `s`, scanning left to right as
Python's regex engine does for a literal pattern. -/
def primeiraOcorrencia : List Char → List Char → Option Nat
  | s@(_ :: t), pat =>
      if comecaL s pat then some 0 else (primeiraOcorrencia t pat).map (· + 1)
  | [], pat => if pat.isEmpty then some 0 else none

/-- Index of the last `'\n'` in `s`, the position where the greedy `.*` of a
DOTALL pattern `label.*\n` stops. -/
def ultimaQuebra (s : List Char) : Option Nat :=
  (s.reverse.findIdx? (fun c => c == '\n')).map (fun k => s.length - 1 - k)

/-- Fuel-driven worker for `pyReplace`; the fuel is an upper bound on the
number of characters still to scan, so `s.length` fuel always suffices. -/
def pyReplaceAux (pat new : List Char) : Nat → List Char → List Char
  | _, [] => []
  | 0, s => s
  | fuel + 1, s@(c :: cs) =>
      if comecaL s pat then new ++ pyReplaceAux pat new fuel (s.drop pat.length)
      else c :: pyReplaceAux pat new fuel cs

/-- Python's `str.replace(pat, new)`: replace every non-overlapping occurrence
of `pat`, scanning left to right.  The code under verification never calls
`replace` with an empty pattern, so that case just returns `s`. -/
def pyReplace (s pat new : List Char) : List Char :=
  if pat.isEmpty then s else pyReplaceAux pat new s.length s

/-- Numeric value of a list of ASCII digits, as read by Python's `int`/`float`. -/
def valorDigitos (ds : List Char) : Nat :=
  ds.foldl (fun a c => 10 * a + (c.toNat - '0'.toNat)) 0

/-- Python's `int(s)` on the digit-only strings produced by the CNAE cleaner:
succeeds exactly on a non-empty all-digit string. -/
def pyInt (s : List Char) : Option Nat :=
  if s ≠ [] ∧ s.all ehDigito then some (valorDigitos s) else none

/-- Non-negative part of Python's `float(s)` literal grammar over the alphabet
`{digits, '.', '-'}` that reaches it in this code: digits with at most one
dot and at least one digit somewhere.  A literal `i.f` denotes the exact
rational `(i * 10^|f| + f) / 10^|f|`, built with `mkRat` so that it evaluates
inside the kernel. -/
def pyFloatNucleo (s : List Char) : Option ℚ :=
  let inteira := s.takeWhile ehDigito
  let resto := s.dropWhile ehDigito
  match resto with
  | [] => if inteira.isEmpty then none else some (mkRat (valorDigitos inteira) 1)
  | '.' :: frac =>
      if frac.all ehDigito ∧ (inteira ≠ [] ∨ frac ≠ []) then
        some (mkRat (valorDigitos inteira * 10 ^ frac.length + valorDigitos frac)
          (10 ^ frac.length))
      else none
  | _ => none

/-- Python's `float(s)` on the cleaned cell strings (alphabet: digits, `'.'`,
`'-'`): `none` models a raised `ValueError`. -/
def pyFloat (s : List Char) : Option ℚ :=
  match s with
  | '-' :: resto => (pyFloatNucleo resto).map Neg.neg
  | _ => pyFloatNucleo s

/-! ## Document category classifier (app/main.py, `analyze`, lines 379-489) -/

/-- The semantic document categories assigned by the filename classifier in
`analyze` (the Python code uses the label strings given by `rotuloCategoria`). -/
inductive Categoria where
  | cartaoCNPJ
  | registro
  | impostoDeRenda
  | situacaoFiscal
  | faturamentoGerencial
  | faturamentoFiscal
  | spcSerasa
  | demonstrativo
  | documentoAdicional
deriving DecidableEq

/-- The extraction route chosen together with the category: the standard text
route, or the deferred structured (camelot/SCR) route used for registratos. -/
inductive Rota where
  | padrao
  | estruturadaDiferida
deriving DecidableEq

/-- The label string the Python code attaches to each category. -/
def rotuloCategoria : Categoria → String
  | .cartaoCNPJ => "Cartão CNPJ"
  | .registro => "Registro"
  | .impostoDeRenda => "Imposto de Renda"
  | .situacaoFiscal => "Situação Fiscal"
  | .faturamentoGerencial => "Faturamento Gerencial"
  | .faturamentoFiscal => "Faturamento Fiscal"
  | .spcSerasa => "SPC e Serasa"
  | .demonstrativo => "Demonstrativo"
  | .documentoAdicional => "Documento Adicional"

/-- The `else` branch of the classifier chain in `analyze` (main.py lines
465-489), applied to the already lower-cased filename. -/
def categoriaPadrao (fn : String) : Categoria :=
  if contem fn "imposto" || contem fn "irpf" then .impostoDeRenda
  else if contem fn "registro" || contem fn "contrato" then .registro
  else if contem fn "fiscal" then .situacaoFiscal
  else if contem fn "faturamento" then
    (if contem fn "gerencial" then .faturamentoGerencial else .faturamentoFiscal)
  else if contem fn "spc" || contem fn "serasa" then .spcSerasa
  else if contem fn "demonstrativo" || contem fn "extrato" then .demonstrativo
  else .documentoAdicional

/-- The full filename classifier of `analyze` (main.py lines 398-489): the
`cnpj`/`cartao` test comes first, then `registrato` (the only branch taking
the deferred structured route), then the standard chain. -/
def classifyFile (filename : String) : Categoria × Rota :=
  let fn := pyLower filename
  if contem fn "cnpj" || contem fn "cartao" then (.cartaoCNPJ, .padrao)
  else if contem fn "registrato" then (.registro, .estruturadaDiferida)
  else (categoriaPadrao fn, .padrao)

/-- Modelled from the spec's words (§4.1) for the refinement claim about the
classifier: the ordered predicate list as the spec states it, in which the
Tax Status predicate is "fiscal without faturamento". -/
def classifySpecList (filename : String) : Categoria :=
  let fn := pyLower filename
  if contem fn "cnpj" || contem fn "cartao" then .cartaoCNPJ
  else if contem fn "registrato" then .registro
  else if contem fn "imposto" || contem fn "irpf" then .impostoDeRenda
  else if contem fn "registro" || contem fn "contrato" then .registro
  else if contem fn "fiscal" && !(contem fn "faturamento") then .situacaoFiscal
  else if contem fn "faturamento" && contem fn "gerencial" then .faturamentoGerencial
  else if contem fn "faturamento" then .faturamentoFiscal
  else if contem fn "spc" || contem fn "serasa" then .spcSerasa
  else if contem fn "demonstrativo" || contem fn "extrato" then .demonstrativo
  else .documentoAdicional

/-! ## SCR structured extractor (app/utils.py, lines 259-481) -/

/-- The Python exceptions the SCR cell-extraction block can raise: an
`IndexError` from a positional access, or a `ValueError` from `float` with
the offending (already cleaned) string. -/
inductive PyErr where
  | indexError
  | valueError (s : String)
deriving DecidableEq

/-- The positional grid produced by `pdf_para_dataframe`: the rows of the
concatenated camelot tables (a `none` cell is a pandas NaN) together with the
column count of the concatenated frame (`len(df.columns)`). -/
structure DataFrame where
  rows : List (List (Option String))
  ncols : Nat
deriving DecidableEq

/-- A pandas frame is rectangular: every row has exactly `ncols` cells.
Arbitrary `DataFrame` values need not satisfy this; theorems that depend on
pandas' actual shape take it as a hypothesis. -/
def Retangular (df : DataFrame) : Prop :=
  ∀ linha ∈ df.rows, linha.length = df.ncols

instance (df : DataFrame) : Decidable (Retangular df) := by
  unfold Retangular
  infer_instance

/-- `df.empty` in pandas: one of the axes has length zero. -/
def dfVazio (df : DataFrame) : Bool :=
  df.rows.isEmpty || df.ncols == 0

/-- `df.iloc[i, j] if pd.notna(df.iloc[i, j]) else "0"` (utils.py lines
398/420): an out-of-bounds access raises `IndexError`, an in-bounds NaN
becomes the string `"0"`. -/
def readCell (df : DataFrame) (i j : Nat) : Except PyErr String :=
  match df.rows[i]? with
  | none => .error .indexError
  | some linha =>
      match linha[j]? with
      | none => .error .indexError
      | some celula => .ok (celula.getD "0")

/-- `re.sub(r'[^\d,.-]', '', str(raw))` (utils.py lines 402/424): keep only
digits, comma, period and minus. -/
def brLimpar (raw : String) : List Char :=
  raw.data.filter (fun c => ehDigito c || c == ',' || c == '.' || c == '-')

/-- The Brazilian-locale cell normalization of utils.py lines 402-413: clean
the cell, drop thousands periods, turn the comma into a decimal point, and
call `float`; an empty (cleaned) value short-circuits to `0.0`, and a `float`
failure is a raised `ValueError`. -/
def parseBR (raw : String) : Except PyErr ℚ :=
  let limpo := brLimpar raw
  if limpo.isEmpty then .ok 0
  else
    let convertido := pyReplace (pyReplace limpo ['.'] []) [','] ['.']
    if convertido.isEmpty then .ok 0
    else
      match pyFloat convertido with
      | some q => .ok q
      | none => .error (.valueError (String.mk convertido))

/-- The current-debt step (utils.py lines 397-416): only read and parse grid
position `[2, 1]` when the frame has more than 2 rows and more than 1 column;
otherwise the field keeps its default `0.0`. -/
def stepEmDia (df : DataFrame) : Except PyErr ℚ :=
  if 2 < df.rows.length ∧ 1 < df.ncols then (readCell df 2 1).bind parseBR
  else .ok 0

/-- The overdue-debt step (utils.py lines 419-438): position `[2, 2]`, guarded
by more than 2 rows and more than 2 columns. -/
def stepVencida (df : DataFrame) : Except PyErr ℚ :=
  if 2 < df.rows.length ∧ 2 < df.ncols then (readCell df 2 2).bind parseBR
  else .ok 0

/-- The result dictionary built by `extract_scr_data_from_pdf`
(utils.py lines 356-364), with Python floats modelled as rationals. -/
structure Resultado where
  divida_em_dia : ℚ
  divida_vencida : ℚ
  total_dividas : ℚ
  erro : Option String
  planilha_gerada : Option String
  empresa_nome : String
  empresa_cnpj : String
deriving DecidableEq

/-- The initial result dictionary (utils.py lines 356-364). -/
def resultadoInicial : Resultado :=
  { divida_em_dia := 0
  , divida_vencida := 0
  , total_dividas := 0
  , erro := none
  , planilha_gerada := none
  , empresa_nome := "Não identificado"
  , empresa_cnpj := "Não identificado" }

/-- Rendering of `str(e)` for the modelled exceptions; the surrounding code
only splices this text into the recorded error message. -/
def pyErrStr : PyErr → String
  | .indexError => "index out of bounds"
  | .valueError s => "could not convert string to float: " ++ s

/-- The error message recorded by the inner `except` handler
(utils.py line 456). -/
def msgErroExtracao (e : PyErr) : String :=
  "Erro ao extrair dívidas das células 4C e 4D: " ++ pyErrStr e

/-- The error recorded when the concatenated frame is empty
(utils.py line 382). -/
def msgVazio : String := "DataFrame vazio - não foi possível extrair tabelas do PDF"

/-- The guarded cell-extraction block of utils.py lines 385-458, threading the
partially updated result exactly as the Python assignments do: a raise after
the current-debt assignment keeps that value but leaves `total_dividas` at its
previous value.  The boolean records whether the handler's early `return` was
taken (which skips the Excel-name step). -/
def innerBloco (df : DataFrame) (r0 : Resultado) : Resultado × Bool :=
  match stepEmDia df with
  | .error e => ({ r0 with erro := some (msgErroExtracao e) }, true)
  | .ok v1 =>
      match stepVencida df with
      | .error e =>
          ({ r0 with divida_em_dia := v1, erro := some (msgErroExtracao e) }, true)
      | .ok v2 =>
          ({ r0 with divida_em_dia := v1, divida_vencida := v2
                   , total_dividas := v1 + v2 }, false)

/-- The fixed label anchors used for the identity fields
(utils.py lines 374-375). -/
def razaoLabel : List Char := "Razão Social:".data

/-- The tax-id label anchor. -/
def cnpjLabel : List Char := "CNPJ:".data

/-- `encontrar(comeco, r'\n', fonte)` of utils.py lines 259-270, specialized
to the literal label anchors it is called with.  `re.findall(comeco + '.*' +
r'\n', fonte, re.DOTALL)` matches from the first occurrence of the label to
the LAST newline of the whole text (DOTALL makes `.*` cross and greedily
swallow line breaks); the code then deletes every occurrence of the label and
every newline from that match.  No match yields the sentinel `"###"`. -/
def encontrar (comeco fonte : List Char) : List Char :=
  match primeiraOcorrencia fonte comeco with
  | none => "###".data
  | some i =>
      match ultimaQuebra fonte with
      | none => "###".data
      | some j =>
          if i + comeco.length ≤ j then
            let casado := (fonte.drop i).take (j + 1 - i)
            pyReplace (pyReplace casado comeco []) ['\n'] []
          else "###".data

/-- Modelled from the spec's words (§4.4 step 2) for the refinement claim
about the identity fields: capture the text strictly between the label anchor
and the NEXT line break after it. -/
def capturaSpecProximaQuebra (comeco fonte : List Char) : List Char :=
  match primeiraOcorrencia fonte comeco with
  | none => "###".data
  | some i =>
      let aposRotulo := fonte.drop (i + comeco.length)
      if contemL aposRotulo ['\n'] then aposRotulo.takeWhile (fun c => c != '\n')
      else "###".data

/-- The Excel-name step (utils.py lines 461-467): `filename.replace('.pdf',
'.xlsx') if filename else 'SCR_convertido.xlsx'` (an absent or empty filename
is falsy). -/
def nomeExcel : Option String → String
  | some f => if f.isEmpty then "SCR_convertido.xlsx"
              else String.mk (pyReplace f.data ".pdf".data ".xlsx".data)
  | none => "SCR_convertido.xlsx"

/-- `extract_scr_data_from_pdf` (utils.py lines 337-481), taking as inputs the
already-computed outputs of its two external collaborators: the concatenated
camelot grid (`pdf_para_dataframe`) and the raw PyPDF2 text
(`extrair_texto_pdf`).  The diagnostic scan of lines 445-453 only prints and
is omitted; the outer `except` of line 478 is unreachable in this model
because every failing operation is already handled where the Python code
handles it. -/
def extract_scr_data_from_pdf (df : DataFrame) (texto : List Char)
    (filename : Option String) : Resultado :=
  let nome := encontrar razaoLabel texto
  let cnpj := encontrar cnpjLabel texto
  let r1 := { resultadoInicial with
      empresa_nome := if nome ≠ "###".data then String.mk nome else "Não identificado"
    , empresa_cnpj := if cnpj ≠ "###".data then String.mk cnpj else "Não identificado" }
  if dfVazio df then { r1 with erro := some msgVazio }
  else
    let par := innerBloco df r1
    if par.2 then par.1
    else { par.1 with planilha_gerada := some (nomeExcel filename) }

/-! ## CNAE segment classifier (app/main.py, `extrair_segmento_do_cnae`,
lines 116-188)

The four alternative patterns are fixed regexes; the embedding implements
each one directly with the semantics Python's engine gives them on these
patterns: leftmost search position wins, alternatives are tried left to
right, and every quantifier here is followed by a disjoint character class,
so greedy maximal munch is exact. -/

/-- Case-insensitive literal match (`re.IGNORECASE` on the ASCII letters the
patterns contain); consumes the literal and returns the rest. -/
def litCI : List Char → List Char → Option (List Char)
  | [], s => some s
  | _ :: _, [] => none
  | p :: ps, c :: cs => if c.toLower == p.toLower then litCI ps cs else none

/-- One mandatory whitespace then greedily any more (`\s+`). -/
def umOuMaisEspacos : List Char → Option (List Char)
  | c :: cs => if ehEspaco c then some (cs.dropWhile ehEspaco) else none
  | [] => none

/-- An optional single character from a class (`[...]?` / `:?`). -/
def opcional (p : Char → Bool) : List Char → List Char
  | c :: cs => if p c then cs else c :: cs
  | [] => []

/-- One mandatory character from a class (`[...]`). -/
def umDe (p : Char → Bool) : List Char → Option (List Char)
  | c :: cs => if p c then some cs else none
  | [] => none

/-- `\d+`, returning the greedily captured digits and the rest. -/
def digitos1 (s : List Char) : Option (List Char × List Char) :=
  let ds := s.takeWhile ehDigito
  if ds.isEmpty then none else some (ds, s.dropWhile ehDigito)

/-- A single literal (case-sensitive) character. -/
def litc (ch : Char) : List Char → Option (List Char)
  | c :: cs => if c == ch then some cs else none
  | [] => none

/-- Code alternative `\d+\-\d+\/\d+` (e.g. `47-51/2`). -/
def altBarra (s : List Char) : Option (List Char) := do
  let (d1, s1) ← digitos1 s
  let s2 ← litc '-' s1
  let (d2, s3) ← digitos1 s2
  let s4 ← litc '/' s3
  let (d3, _) ← digitos1 s4
  pure (d1 ++ ['-'] ++ d2 ++ ['/'] ++ d3)

/-- Code alternative `\d+\.\d+\-\d+\-\d+` (e.g. `47.51-2-01`). -/
def altPontoDuplo (s : List Char) : Option (List Char) := do
  let (d1, s1) ← digitos1 s
  let s2 ← litc '.' s1
  let (d2, s3) ← digitos1 s2
  let s4 ← litc '-' s3
  let (d3, s5) ← digitos1 s4
  let s6 ← litc '-' s5
  let (d4, _) ← digitos1 s6
  pure (d1 ++ ['.'] ++ d2 ++ ['-'] ++ d3 ++ ['-'] ++ d4)

/-- Code alternative `\d+\-\d+` (e.g. `86-1`). -/
def altHifen (s : List Char) : Option (List Char) := do
  let (d1, s1) ← digitos1 s
  let s2 ← litc '-' s1
  let (d2, _) ← digitos1 s2
  pure (d1 ++ ['-'] ++ d2)

/-- Code alternative `\d+\.\d+` (e.g. `47.5`). -/
def altPonto (s : List Char) : Option (List Char) := do
  let (d1, s1) ← digitos1 s
  let s2 ← litc '.' s1
  let (d2, _) ← digitos1 s2
  pure (d1 ++ ['.'] ++ d2)

/-- The capture group shared by all four patterns: the four code shapes in
the alternation order of the source regexes. -/
def capturaCodigo (s : List Char) : Option (List Char) :=
  (altBarra s).orElse fun _ =>
    (altPontoDuplo s).orElse fun _ =>
      (altHifen s).orElse fun _ => altPonto s

/-- Label part of pattern 1: `CNAE\s+principal:?\s*`. -/
def rotuloCnaePrincipal (s : List Char) : Option (List Char) := do
  let s1 ← litCI "CNAE".data s
  let s2 ← umOuMaisEspacos s1
  let s3 ← litCI "principal".data s2
  pure ((opcional (fun c => c == ':') s3).dropWhile ehEspaco)

/-- Label part of pattern 2: `atividade\s+econ[ôo]mica\s+principal:?\s*`.
With `re.IGNORECASE` the class `[ôo]` also accepts the upper-case forms. -/
def rotuloAtividade (s : List Char) : Option (List Char) := do
  let s1 ← litCI "atividade".data s
  let s2 ← umOuMaisEspacos s1
  let s3 ← litCI "econ".data s2
  let s4 ← umDe (fun c => c == 'ô' || c == 'Ô' || c == 'o' || c == 'O') s3
  let s5 ← litCI "mica".data s4
  let s6 ← umOuMaisEspacos s5
  let s7 ← litCI "principal".data s6
  pure ((opcional (fun c => c == ':') s7).dropWhile ehEspaco)

/-- A sequential piece of a label regex: a case-insensitive literal, a `\s+`,
or a one-character class given by its member list. -/
inductive Pedaco where
  | lit (w : String)
  | esp
  | classe (cs : List Char)

/-- Match a sequence of label pieces from the current position. -/
def casaPedacos : List Pedaco → List Char → Option (List Char)
  | [], s => some s
  | .lit w :: resto, s => (litCI w.data s).bind (casaPedacos resto)
  | .esp :: resto, s => (umOuMaisEspacos s).bind (casaPedacos resto)
  | .classe cs :: resto, s => (umDe (fun c => cs.contains c) s).bind (casaPedacos resto)

/-- Label part of pattern 3:
`C[ÓO]DIGO\s+E\s+DESCRI[ÇC][ÃA]O\s+DA\s+ATIVIDADE\s+ECON[ÔO]MICA\s+PRINCIPAL[:\s]*`
(the classes include both cases because of `re.IGNORECASE`). -/
def rotuloCodigoDescricao (s : List Char) : Option (List Char) :=
  (casaPedacos
    [ .lit "C", .classe ['Ó', 'ó', 'O', 'o'], .lit "DIGO", .esp
    , .lit "E", .esp
    , .lit "DESCRI", .classe ['Ç', 'ç', 'C', 'c'], .classe ['Ã', 'ã', 'A', 'a']
    , .lit "O", .esp
    , .lit "DA", .esp
    , .lit "ATIVIDADE", .esp
    , .lit "ECON", .classe ['Ô', 'ô', 'O', 'o'], .lit "MICA", .esp
    , .lit "PRINCIPAL" ] s).map
    (fun resto => resto.dropWhile (fun c => c == ':' || ehEspaco c))

/-- Label part of pattern 4: `principal\s*[:\-]?\s*`. -/
def rotuloPrincipal (s : List Char) : Option (List Char) := do
  let s1 ← litCI "principal".data s
  let s2 := s1.dropWhile ehEspaco
  pure ((opcional (fun c => c == ':' || c == '-') s2).dropWhile ehEspaco)

/-- `re.search` for one pattern: try the pattern at every start position from
the left and return the first capture. -/
def buscar (m : List Char → Option (List Char)) : List Char → Option (List Char)
  | [] => m []
  | s@(_ :: t) =>
      match m s with
      | some r => some r
      | none => buscar m t

/-- The four patterns of `padroes_cnae` (main.py lines 129-141), in source
order, each returning the capture group of the code. -/
def padroesCnae : List (List Char → Option (List Char)) :=
  [ fun s => (rotuloCnaePrincipal s).bind capturaCodigo
  , fun s => (rotuloAtividade s).bind capturaCodigo
  , fun s => (rotuloCodigoDescricao s).bind capturaCodigo
  , fun s => (rotuloPrincipal s).bind capturaCodigo ]

/-- The pattern loop of main.py lines 144-185: search each pattern in order;
on a match, keep the first two digits of the captured code and convert with
`int`; a conversion failure `continue`s with the next pattern. Returns the
division number of the first pattern that matches and converts. -/
def primeiraDivisao : List (List Char → Option (List Char)) → List Char → Option Nat
  | [], _ => none
  | p :: ps, texto =>
      match buscar p texto with
      | some codigo =>
          match pyInt ((codigo.filter ehDigito).take 2) with
          | some n => some n
          | none => primeiraDivisao ps texto
      | none => primeiraDivisao ps texto

/-- The range chain of main.py lines 160-181, in source order. -/
def classificaDivisao (n : Nat) : String :=
  if 45 ≤ n ∧ n ≤ 47 then "Varejo"
  else if 5 ≤ n ∧ n ≤ 33 then "Indústria"
  else if (58 ≤ n ∧ n ≤ 63) ∨ n = 72 then "Tecnologia"
  else if 86 ≤ n ∧ n ≤ 88 then "Saúde"
  else if n = 85 then "Educação"
  else "Serviços"

/-- `extrair_segmento_do_cnae` (main.py lines 116-188). -/
def extrair_segmento_do_cnae (texto : List Char) : String :=
  match primeiraDivisao padroesCnae texto with
  | some n => classificaDivisao n
  | none => "Outro"

/-- Modelled from the spec's words (§4.5) for the refinement claim: the
disjoint numeric ranges in the order the spec lists them. -/
def segmentoSpec (n : Nat) : String :=
  if 5 ≤ n ∧ n ≤ 33 then "Indústria"
  else if 45 ≤ n ∧ n ≤ 47 then "Varejo"
  else if (58 ≤ n ∧ n ≤ 63) ∨ n = 72 then "Tecnologia"
  else if n = 85 then "Educação"
  else if 86 ≤ n ∧ n ≤ 88 then "Saúde"
  else "Serviços"

/-! ## Token-budget assembler (app/main.py, `analyze_with_openai`,
lines 110-114 and 190-236)

The tokenizer is the external tiktoken collaborator; the assembler is
parameterized by an abstract `encode`/`decode` pair over an arbitrary token
type, exactly as the code only uses `encoding.encode`, `len`, slicing and
`encoding.decode`. -/

/-- `LIMITE_TOTAL_TOKENS` (main.py line 112). -/
def LIMITE_TOTAL_TOKENS : Nat := 128000

/-- `LIMITE_COMPLETION` (main.py line 113). -/
def LIMITE_COMPLETION : Nat := 16384

/-- `LIMITE_PROMPT = LIMITE_TOTAL_TOKENS - LIMITE_COMPLETION` (main.py
line 114). -/
def LIMITE_PROMPT : Nat := LIMITE_TOTAL_TOKENS - LIMITE_COMPLETION

/-- `prompt_fixo` (main.py lines 203-205). -/
def prompt_fixo : String :=
  "Analise o seguinte conteúdo dos documentos empresariais:\n\n"

/-- `prompt_final` (main.py lines 206-211; Python concatenates the four
adjacent string literals). -/
def prompt_final : String :=
  "\n\nForneça uma análise completa seguindo a estrutura solicitada. \nNote que pode haver múltiplos documentos para cada categoria (ex: múltiplos arquivos de Faturamento Fiscal ou SPC/Serasa). Considere todos os documentos em sua análise, mesmo que sejam da mesma categoria."

/-- The truncation marker appended at main.py line 233. -/
def marcadorTruncado : String := "\n\n[TEXTO TRUNCADO AUTOMATICAMENTE]"

/-- Python list slicing `l[:k]` for a possibly negative stop index. -/
def pySlice {α : Type} (l : List α) (k : Int) : List α :=
  if 0 ≤ k then l.take k.toNat else l.take (l.length - (-k).toNat)

/-- `tokens_disponiveis_para_docs` (main.py line 221): the prompt budget minus
the system tokens and the fixed prompt tokens, as a (possibly negative)
Python integer. -/
def tokensDisponiveis {τ : Type} (encode : String → List τ) (system_prompt : String) : Int :=
  (LIMITE_PROMPT : Int) - (encode system_prompt).length
    - (encode (prompt_fixo ++ prompt_final)).length

/-- The corpus-assembly core of `analyze_with_openai` (main.py lines 213-236):
tokenize the combined document text, truncate the token sequence to the
allowance and decode back when it overflows, append the truncation marker,
and build the final user prompt.  Returns `(user_prompt, combined_text)`
after the transformation. -/
def montarPrompt {τ : Type} (encode : String → List τ) (decode : List τ → String)
    (system_prompt combined_text : String) : String × String :=
  let disp := tokensDisponiveis encode system_prompt
  let doc_tokens := encode combined_text
  let ct :=
    if (doc_tokens.length : Int) > disp then
      decode (pySlice doc_tokens disp) ++ marcadorTruncado
    else combined_text
  (prompt_fixo ++ ct ++ prompt_final, ct)

/-- `endsWith` on the character data of strings. -/
def terminaCom (s sufixo : String) : Bool :=
  comecaL s.data.reverse sufixo.data.reverse

/-! ## The per-file loop of `analyze` (app/main.py, lines 379-524)

Extraction is I/O performed by `extract_text_from_document`; each upload
therefore carries the outcome of its own extraction (`Except` models the
raised-exception case).  The loop state collects the combined corpus, the
processed-file records, the CNPJ-card text and the queue of deferred
registrato files. -/

/-- An uploaded file together with the outcome its extraction would produce:
`.error` models `extract_text_from_document` raising. -/
structure Upload where
  filename : String
  content_type : String
  extracao : Except String String
deriving DecidableEq

/-- The status strings recorded in `processed_files`. -/
inductive StatusArq where
  | processado
  | vazio
  | paraProcessamento
deriving DecidableEq

/-- One record of the `processed_files` list: the empty-file record has
`text_length = 0` and no category key; the deferred record has a category but
no length key. -/
structure ArqProcessado where
  filename : String
  status : StatusArq
  text_length : Option Nat
  category : Option Categoria
deriving DecidableEq

/-- The loop state of `analyze`: `combined_text`, `processed_files`,
`cartao_cnpj_text` and the `registrato_files` queue (main.py lines 324-327). -/
structure EstadoAnalise where
  combined : String
  processados : List ArqProcessado
  cartaoCnpjTexto : String
  registratos : List String
deriving DecidableEq

/-- The MIME allow-list of main.py lines 385-387. -/
def tiposSuportados : List String :=
  [ "application/pdf", "image/jpeg", "image/png", "application/msword"
  , "application/vnd.openxmlformats-officedocument.wordprocessingml.document" ]

/-- The labeled block appended to the combined corpus for one processed
document (main.py lines 422-423 and 505-506). -/
def blocoDocumento (cat : Categoria) (fn texto : String) : String :=
  "\n=== DOCUMENTO (" ++ rotuloCategoria cat ++ "): " ++ fn ++ " ===\n"
    ++ texto ++ "\n\n"

/-- The placeholder block appended for a deferred registrato
(main.py lines 455-456). -/
def blocoRegistrato (fn : String) : String :=
  "\n=== DOCUMENTO (Registro): " ++ fn
    ++ " ===\n[REGISTRATO - SERÁ PROCESSADO COM CAMELOT]\n\n"

/-- One iteration of the file loop of `analyze` (main.py lines 379-524):
reject unsupported content types (request-fatal `HTTPException`), classify by
filename, handle the CNPJ-card route (which also accumulates
`cartao_cnpj_text`), queue registratos with a placeholder, and on the
standard route record an empty extraction as a `vazio` entry and `continue`
without touching the corpus.  An extraction exception is request-fatal. -/
def processarArquivo (st : EstadoAnalise) (f : Upload) : Except String EstadoAnalise :=
  if f.content_type ∈ tiposSuportados then
    let fn := pyLower f.filename
    if contem fn "cnpj" || contem fn "cartao" then
      match f.extracao with
      | .error e => .error ("Erro ao processar " ++ f.filename ++ ": " ++ e)
      | .ok texto =>
          if pyStrip texto = "" then
            .ok { st with processados :=
                    st.processados ++ [⟨f.filename, .vazio, some 0, none⟩] }
          else
            .ok { st with
                cartaoCnpjTexto := st.cartaoCnpjTexto ++ texto
              , combined := st.combined ++ blocoDocumento .cartaoCNPJ f.filename texto
              , processados := st.processados
                  ++ [⟨f.filename, .processado, some texto.length, some .cartaoCNPJ⟩] }
    else if contem fn "registrato" then
      .ok { st with
          registratos := st.registratos ++ [f.filename]
        , combined := st.combined ++ blocoRegistrato f.filename
        , processados := st.processados
            ++ [⟨f.filename, .paraProcessamento, none, some .registro⟩] }
    else
      let cat := categoriaPadrao fn
      match f.extracao with
      | .error e => .error ("Erro ao processar " ++ f.filename ++ ": " ++ e)
      | .ok texto =>
          if pyStrip texto = "" then
            .ok { st with processados :=
                    st.processados ++ [⟨f.filename, .vazio, some 0, none⟩] }
          else
            .ok { st with
                combined := st.combined ++ blocoDocumento cat f.filename texto
              , processados := st.processados
                  ++ [⟨f.filename, .processado, some texto.length, some cat⟩] }
  else
    .error ("Arquivo " ++ f.filename
      ++ " não é suportado. Formatos aceitos: PDF, JPEG, PNG, DOC, DOCX.")

/-! ## Temporary-file traces (app/utils.py `pdf_para_dataframe` lines 293-333,
app/docling_wrapper.py `DocumentWrapper.convert_to_markdown` lines 113-212)

The filesystem effect of each function is recorded as a trace of create and
delete operations on its temporary artifacts; the external collaborators
(camelot, pdf2image, the vision model) enter as `Except` outcomes. -/

/-- A filesystem operation on a temporary artifact. -/
inductive OpFS where
  | cria (p : String)
  | apaga (p : String)
deriving DecidableEq

/-- Every created path also has a delete in the trace. -/
def todasLimpas (ops : List OpFS) : Bool :=
  ops.all fun o =>
    match o with
    | .cria p => ops.contains (.apaga p)
    | .apaga _ => true

/-- The temporary PDF copy written by `tempfile.NamedTemporaryFile`. -/
def tmpPdfCaminho : String := "tmp.pdf"

/-- The temporary image rendered for page `i` of the vision strategy. -/
def imgCaminho (i : Nat) : String := "doc_page_" ++ toString i ++ ".png"

/-- Substitute embedded newlines by spaces in every cell, as
`df.replace('\n', ' ', regex=True)` does (utils.py line 314). -/
def substituiQuebras (df : DataFrame) : DataFrame :=
  { df with rows := df.rows.map fun linha =>
      linha.map fun c => c.map fun s => String.mk (pyReplace s.data ['\n'] [' ']) }

/-- `pd.concat(dfs, ignore_index=True)`: stack all rows; the column set is
the widest table's, shorter rows being padded with NaN. -/
def concatTabelas (tabelas : List DataFrame) : DataFrame :=
  let largura := tabelas.foldr (fun t m => max t.ncols m) 0
  { rows := ((tabelas.map substituiQuebras).map DataFrame.rows).flatten.map
      (fun linha => linha ++ List.replicate (largura - linha.length) none)
  , ncols := largura }

/-- `pdf_para_dataframe` (utils.py lines 293-333) with its filesystem trace:
the temporary PDF is written first; if `camelot.read_pdf` raises, the
`except` handler returns an empty frame WITHOUT unlinking the temporary copy
(the `os.unlink` of line 327 is only on the success path). -/
def pdf_para_dataframe (camelot : Except String (List DataFrame)) :
    DataFrame × List OpFS :=
  match camelot with
  | .error _ => (⟨[], 0⟩, [OpFS.cria tmpPdfCaminho])
  | .ok tabelas =>
      let df := if tabelas.isEmpty then (⟨[], 0⟩ : DataFrame) else concatTabelas tabelas
      (df, [OpFS.cria tmpPdfCaminho, OpFS.apaga tmpPdfCaminho])

/-- The PDF branch of `DocumentWrapper.convert_to_markdown`
(docling_wrapper.py lines 113-212) with its filesystem trace: the temporary
PDF copy is written, the pages are rendered to images (`paginas` is the
pdf2image outcome), the copy is unlinked only after a successful render, the
vision call runs, and the images are unlinked on both the success path (lines
196-198) and the exception path (lines 206-211).  If `pdf2image` raises, the
exception handler only cleans the (still empty) image list, leaking the
temporary PDF. -/
def convert_to_markdown (paginas : Except String Nat)
    (visao : Except String String) : String × List OpFS :=
  match paginas with
  | .error e =>
      ("[ERRO NO PROCESSAMENTO DA IMAGEM: " ++ e ++ "]", [OpFS.cria tmpPdfCaminho])
  | .ok n =>
      let imagens := (List.range n).map imgCaminho
      let atoProcessar := [OpFS.cria tmpPdfCaminho] ++ imagens.map OpFS.cria
        ++ [OpFS.apaga tmpPdfCaminho]
      match visao with
      | .ok texto => (texto, atoProcessar ++ imagens.map OpFS.apaga)
      | .error e =>
          ("[ERRO NO PROCESSAMENTO DA IMAGEM: " ++ e ++ "]",
            atoProcessar ++ imagens.map OpFS.apaga)

/-! ## Concrete test inputs used by counterexamples and witnesses -/

/-- The character-level tokenizer used to instantiate the abstract tiktoken
collaborator: every character is one token. -/
def encC : String → List Char := String.data

/-- The matching detokenizer. -/
def decC : List Char → String := String.mk

/-- A combined document text large enough to overflow the document token
allowance under the character tokenizer. -/
def ctGrande : String := String.mk (List.replicate 111700 'a')

/-- A rectangular 3×3 grid whose current-debt cell parses to `100.50` and
whose overdue-debt cell `"1,2,3"` is cleaned to the unparsable `"1.2.3"`. -/
def dfCexC1 : DataFrame :=
  ⟨[ [some "Tipo", some "Em dia", some "Vencida"]
   , [some "x", some "y", some "z"]
   , [some "Total", some "100,50", some "1,2,3"] ], 3⟩

/-- A rectangular 3×3 grid with both debt cells parsable. -/
def dfTesteC8 : DataFrame :=
  ⟨[ [some "Tipo", some "Em dia", some "Vencida"]
   , [some "x", some "y", some "z"]
   , [some "Total", some "10,50", some "2,25"] ], 3⟩

/-- A two-line raw text whose first line holds the corporate-name label. -/
def textoCexC6 : List Char := "Razão Social: ACME\nCNPJ: 9\n".data

/-- The empty loop state at the start of `analyze`. -/
def estadoInicialAnalise : EstadoAnalise := ⟨"", [], "", []⟩

/-- An upload whose extraction succeeds with whitespace-only text. -/
def uploadVazio : Upload := ⟨"relatorio_anual.pdf", "application/pdf", .ok "  \n \t "⟩

/-! ## Helper lemmas -/

theorem data_mk (l : List Char) : (String.mk l).data = l := rfl

theorem data_append (s t : String) : (s ++ t).data = s.data ++ t.data := rfl

theorem comecaL_append_self (p t : List Char) : comecaL (p ++ t) p = true := by
  induction p with
  | nil => cases t <;> rfl
  | cons c cs ih => simp [comecaL, ih]

theorem comecaL_length {s p : List Char} (h : comecaL s p = true) :
    p.length ≤ s.length := by
  induction p generalizing s with
  | nil => simp
  | cons c cs ih =>
      cases s with
      | nil => simp [comecaL] at h
      | cons a as =>
          simp only [comecaL, Bool.and_eq_true] at h
          have := ih h.2
          simpa [Nat.succ_le_succ_iff] using this

theorem primeiraOcorrencia_append_self (p t : List Char) :
    primeiraOcorrencia (p ++ t) p = some 0 := by
  cases p with
  | nil =>
      cases t with
      | nil => rfl
      | cons b bs => simp [primeiraOcorrencia, comecaL]
  | cons c cs =>
      have h : comecaL (c :: (cs ++ t)) (c :: cs) = true := comecaL_append_self (c :: cs) t
      simp [primeiraOcorrencia, h]

theorem primeiraOcorrencia_nao_contem {s pat : List Char}
    (h : contemL s pat = false) : primeiraOcorrencia s pat = none := by
  induction s with
  | nil =>
      simp only [contemL] at h
      simp [primeiraOcorrencia, h]
  | cons a as ih =>
      simp only [contemL, Bool.or_eq_false_iff] at h
      simp [primeiraOcorrencia, h.1, ih h.2]

theorem ultimaQuebra_final (x : List Char) :
    ultimaQuebra (x ++ ['\n']) = some x.length := by
  unfold ultimaQuebra
  rw [List.reverse_append]
  simp [List.findIdx?_cons]

theorem pyReplaceAux_cons_pos {pat : List Char} {c : Char} {cs : List Char}
    (new : List Char) (m : Nat) (h : comecaL (c :: cs) pat = true) :
    pyReplaceAux pat new (m + 1) (c :: cs)
      = new ++ pyReplaceAux pat new m ((c :: cs).drop pat.length) := by
  simp [pyReplaceAux, h]

theorem pyReplaceAux_cons_neg {pat : List Char} {c : Char} {cs : List Char}
    (new : List Char) (m : Nat) (h : comecaL (c :: cs) pat = false) :
    pyReplaceAux pat new (m + 1) (c :: cs) = c :: pyReplaceAux pat new m cs := by
  simp [pyReplaceAux, h]

theorem pyReplace_eq_aux {pat : List Char} (hp : pat ≠ []) (new s : List Char) :
    pyReplace s pat new = pyReplaceAux pat new s.length s := by
  have hpe : pat.isEmpty = false := by
    cases pat with
    | nil => exact absurd rfl hp
    | cons _ _ => rfl
  simp [pyReplace, hpe]

theorem pyReplaceAux_fuel {pat : List Char} (hp : pat ≠ []) (new : List Char) :
    ∀ fuel s, s.length ≤ fuel →
      pyReplaceAux pat new fuel s = pyReplaceAux pat new s.length s := by
  intro fuel
  induction fuel using Nat.strong_induction_on with
  | _ fuel ih =>
      intro s hs
      cases fuel with
      | zero =>
          have : s = [] := List.length_eq_zero.mp (Nat.le_zero.mp hs)
          subst this; rfl
      | succ m =>
          cases s with
          | nil => rfl
          | cons c cs =>
              have hlen : (c :: cs).length = cs.length + 1 := rfl
              have hcs : cs.length ≤ m := by
                simp only [hlen] at hs; omega
              cases hpre : comecaL (c :: cs) pat with
              | true =>
                  have hplen : 1 ≤ pat.length := by
                    cases pat with
                    | nil => exact absurd rfl hp
                    | cons _ _ => simp
                  have hdrop : ((c :: cs).drop pat.length).length ≤ m := by
                    have h1 := comecaL_length hpre
                    simp only [List.length_drop]
                    omega
                  have hdrop' : ((c :: cs).drop pat.length).length ≤ cs.length := by
                    have h1 := comecaL_length hpre
                    simp only [List.length_drop]
                    omega
                  rw [pyReplaceAux_cons_pos new m hpre, hlen,
                    pyReplaceAux_cons_pos new cs.length hpre,
                    ih m (by omega) _ hdrop, ih cs.length (by omega) _ hdrop']
              | false =>
                  rw [pyReplaceAux_cons_neg new m hpre, hlen,
                    pyReplaceAux_cons_neg new cs.length hpre,
                    ih m (by omega) cs hcs, ih cs.length (by omega) cs (le_refl _)]

theorem pyReplace_nao_contem {s pat : List Char} (new : List Char)
    (hp : pat ≠ []) (h : contemL s pat = false) : pyReplace s pat new = s := by
  induction s with
  | nil => simp [pyReplace, pyReplaceAux]
  | cons a as ih =>
      simp only [contemL, Bool.or_eq_false_iff] at h
      rw [pyReplace_eq_aux hp new] at ih ⊢
      have hlen : (a :: as).length = as.length + 1 := rfl
      rw [hlen, pyReplaceAux_cons_neg new as.length h.1]
      exact congrArg (a :: ·) (ih h.2)

theorem pyReplace_prefixo {pat : List Char} (t new : List Char) (hp : pat ≠ []) :
    pyReplace (pat ++ t) pat new = new ++ pyReplace t pat new := by
  cases pat with
  | nil => exact absurd rfl hp
  | cons c cs =>
      rw [pyReplace_eq_aux hp new, pyReplace_eq_aux hp new]
      have hlen : ((c :: cs) ++ t).length = (cs ++ t).length + 1 := by simp
      have hshape : (c :: cs) ++ t = c :: (cs ++ t) := rfl
      have hdrop : (c :: (cs ++ t)).drop (c :: cs).length = t :=
        List.drop_left (c :: cs) t
      have hpre : comecaL (c :: (cs ++ t)) (c :: cs) = true :=
        comecaL_append_self (c :: cs) t
      rw [hshape] at hlen ⊢
      rw [hlen, pyReplaceAux_cons_pos new (cs ++ t).length hpre]
      rw [show (c :: (cs ++ t)).drop (c :: cs).length = t from hdrop]
      rw [pyReplaceAux_fuel hp new (cs ++ t).length t (by simp)]

theorem pyReplace_filtra (a : Char) (s : List Char) :
    pyReplace s [a] [] = s.filter (fun c => !(c == a)) := by
  induction s with
  | nil => rfl
  | cons b bs ih =>
      have hp : ([a] : List Char) ≠ [] := by simp
      rw [pyReplace_eq_aux hp []] at ih ⊢
      have hlen : (b :: bs).length = bs.length + 1 := rfl
      rw [hlen]
      cases hb : (b == a) with
      | true =>
          have hpre : comecaL (b :: bs) [a] = true := by
            simp [comecaL, hb]
          rw [pyReplaceAux_cons_pos [] bs.length hpre]
          rw [show (b :: bs).drop ([a] : List Char).length = bs from rfl]
          have hba : b = a := by simpa using hb
          simp [List.filter, hba, ih]
      | false =>
          have hpre : comecaL (b :: bs) [a] = false := by
            simp [comecaL, hb]
          rw [pyReplaceAux_cons_neg [] bs.length hpre]
          simp [List.filter, hb, ih]

/-! ## Claim C3: Brazilian-locale numeric normalization -/

/-- C3 counterexample: the claim says any unparsable cell string becomes
`0.0` and the normalization never raises, but the cell `"1,2,3"` is cleaned
to `"1.2.3"` and `float` then raises a `ValueError` instead of yielding
`0.0`. -/
theorem C3_counterexample :
    parseBR "1,2,3" = .error (.valueError "1.2.3") ∧
    parseBR "1,2,3" ≠ .ok 0 := by
  constructor
  · rfl
  · decide

/-- C3 amended: the normalization maps `"1.234,56"` to `1234.56` and maps the
empty string — and more generally any cell whose cleaned form (digits, comma,
period, minus only) is empty — to `0.0` without raising; a cell whose cleaned,
comma-converted form is non-empty but not a valid decimal raises `ValueError`
(which the enclosing extractor catches), as `"1,2,3"` shows. -/
theorem C3_parse_brl_amended :
    parseBR "1.234,56" = .ok (mkRat 123456 100) ∧
    parseBR "" = .ok 0 ∧
    (∀ raw : String, brLimpar raw = [] → parseBR raw = .ok 0) ∧
    parseBR "abc" = .ok 0 ∧
    parseBR "1,2,3" = .error (.valueError "1.2.3") := by
  refine ⟨by decide, by decide, ?_, by decide, by decide⟩
  intro raw h
  simp [parseBR, h]

/-- Witness for the quantified part of the amended C3 at the concrete
unparsable-but-harmless cell `"R$ x"`. -/
theorem C3_parse_brl_amended_witness : parseBR "x!y" = .ok 0 :=
  C3_parse_brl_amended.2.2.1 "x!y" (by decide)

/-! ## Claim C4: category classifier order -/

/-- C4 counterexample: `"faturamento_fiscal.pdf"` contains `"faturamento"`
and not `"gerencial"`, so the claim (and the spec's predicate list) classify
it Tax Billing (`Faturamento Fiscal`), but the code tests `'fiscal'` first
without excluding `'faturamento'` and yields Tax Status (`Situação
Fiscal`). -/
theorem C4_counterexample :
    contem (pyLower "faturamento_fiscal.pdf") "faturamento" = true ∧
    contem (pyLower "faturamento_fiscal.pdf") "gerencial" = false ∧
    (classifyFile "faturamento_fiscal.pdf").1 = Categoria.situacaoFiscal ∧
    (classifyFile "faturamento_fiscal.pdf").1 ≠ Categoria.faturamentoFiscal ∧
    (classifyFile "faturamento_fiscal.pdf").1
      ≠ classifySpecList "faturamento_fiscal.pdf" := by
  decide

/-- C4 amended: the classifier applies the code's ordered first-match-wins
predicate list to the lower-cased filename, in which `'fiscal'` is tested
before `'faturamento'` and without excluding it; consequently, for filenames
matching none of the earlier predicates (`cnpj`, `cartao`, `registrato`,
`imposto`, `irpf`, `registro`, `contrato`): one containing `"fiscal"` is Tax
Status even if it also contains `"faturamento"`; one containing
`"faturamento"` and `"gerencial"` but not `"fiscal"` is Management Billing;
and one containing `"faturamento"` without `"gerencial"` or `"fiscal"` is Tax
Billing. -/
theorem C4_classifier_amended (fn : String)
    (h1 : contem (pyLower fn) "cnpj" = false)
    (h2 : contem (pyLower fn) "cartao" = false)
    (h3 : contem (pyLower fn) "registrato" = false)
    (h4 : contem (pyLower fn) "imposto" = false)
    (h5 : contem (pyLower fn) "irpf" = false)
    (h6 : contem (pyLower fn) "registro" = false)
    (h7 : contem (pyLower fn) "contrato" = false) :
    (contem (pyLower fn) "fiscal" = true →
       classifyFile fn = (Categoria.situacaoFiscal, Rota.padrao)) ∧
    (contem (pyLower fn) "fiscal" = false →
       contem (pyLower fn) "faturamento" = true →
       contem (pyLower fn) "gerencial" = true →
       classifyFile fn = (Categoria.faturamentoGerencial, Rota.padrao)) ∧
    (contem (pyLower fn) "fiscal" = false →
       contem (pyLower fn) "faturamento" = true →
       contem (pyLower fn) "gerencial" = false →
       classifyFile fn = (Categoria.faturamentoFiscal, Rota.padrao)) := by
  refine ⟨?_, ?_, ?_⟩
  · intro hf
    simp [classifyFile, categoriaPadrao, h1, h2, h3, h4, h5, h6, h7, hf]
  · intro hf hft hg
    simp [classifyFile, categoriaPadrao, h1, h2, h3, h4, h5, h6, h7, hf, hft, hg]
  · intro hf hft hg
    simp [classifyFile, categoriaPadrao, h1, h2, h3, h4, h5, h6, h7, hf, hft, hg]

/-- Witness for the amended C4 at three concrete filenames, one per
amended particular. -/
theorem C4_classifier_amended_witness :
    classifyFile "faturamento_fiscal.pdf" = (Categoria.situacaoFiscal, Rota.padrao) ∧
    classifyFile "faturamento_gerencial.pdf"
      = (Categoria.faturamentoGerencial, Rota.padrao) ∧
    classifyFile "faturamento_2024.pdf" = (Categoria.faturamentoFiscal, Rota.padrao) :=
  ⟨(C4_classifier_amended "faturamento_fiscal.pdf" (by decide) (by decide)
      (by decide) (by decide) (by decide) (by decide) (by decide)).1 (by decide),
   (C4_classifier_amended "faturamento_gerencial.pdf" (by decide) (by decide)
      (by decide) (by decide) (by decide) (by decide) (by decide)).2.1
      (by decide) (by decide) (by decide),
   (C4_classifier_amended "faturamento_2024.pdf" (by decide) (by decide)
      (by decide) (by decide) (by decide) (by decide) (by decide)).2.2
      (by decide) (by decide) (by decide)⟩

/-! ## Claim C5: registrato routing -/

/-- C5 counterexample: `"registrato_cnpj.pdf"` contains `"registrato"` but
the `cnpj`/`cartao` predicate is evaluated first, so the file is classified
CNPJ Card on the standard route, not Registration on the deferred structured
route. -/
theorem C5_counterexample :
    contem (pyLower "registrato_cnpj.pdf") "registrato" = true ∧
    classifyFile "registrato_cnpj.pdf" ≠ (Categoria.registro, Rota.estruturadaDiferida) ∧
    classifyFile "registrato_cnpj.pdf" = (Categoria.cartaoCNPJ, Rota.padrao) := by
  decide

/-- C5 amended: every filename containing `"registrato"` (case-insensitively)
and containing neither `"cnpj"` nor `"cartao"` is routed to the deferred
structured route with category Registration. -/
theorem C5_registrato_amended (fn : String)
    (hr : contem (pyLower fn) "registrato" = true)
    (h1 : contem (pyLower fn) "cnpj" = false)
    (h2 : contem (pyLower fn) "cartao" = false) :
    classifyFile fn = (Categoria.registro, Rota.estruturadaDiferida) := by
  simp [classifyFile, hr, h1, h2]

/-- Witness for the amended C5 at the concrete filename
`"Registrato_SCR.pdf"`. -/
theorem C5_registrato_amended_witness :
    classifyFile "Registrato_SCR.pdf" = (Categoria.registro, Rota.estruturadaDiferida) :=
  C5_registrato_amended "Registrato_SCR.pdf" (by decide) (by decide) (by decide)

/-! ## Claim C9: temporary-artifact cleanup -/

/-- C9: the cleanup obligation is violated by the code.  When
`camelot.read_pdf` raises, `pdf_para_dataframe`'s handler returns an empty
frame without unlinking the temporary PDF copy; when `pdf2image` raises,
`convert_to_markdown`'s handler only unlinks the (still empty) image list and
leaks the temporary PDF copy.  The success path and the vision-failure path
do clean everything, which shows the cleanup intent the exception paths
miss. -/
theorem C9_vazamento_temp :
    todasLimpas (pdf_para_dataframe (.error "camelot: arquivo corrompido")).2 = false ∧
    todasLimpas (convert_to_markdown (.error "pdf2image: conversão falhou") (.ok "texto")).2
      = false ∧
    todasLimpas (pdf_para_dataframe (.ok [])).2 = true ∧
    todasLimpas (convert_to_markdown (.ok 2) (.error "falha na chamada de visão")).2
      = true ∧
    todasLimpas (convert_to_markdown (.ok 2) (.ok "texto")).2 = true := by
  decide

/-! ## Claim C7: CNAE segment classification -/

/-- The classification chain the code applies (Retail first) agrees with the
spec's disjoint-range presentation (Industry first) on every division
number. -/
theorem classificaDivisao_eq_segmentoSpec (n : Nat) :
    classificaDivisao n = segmentoSpec n := by
  unfold classificaDivisao segmentoSpec
  split_ifs <;> first | rfl | omega

/-- C7: for every input text, the CNAE classifier returns Other exactly when
no pattern matches (with digits that convert), and otherwise classifies the
two leading digits of the first successful pattern's capture by the spec's
disjoint ranges; the spec's own examples evaluate as stated. -/
theorem C7_cnae_segmentos :
    (∀ texto : List Char,
       extrair_segmento_do_cnae texto =
         match primeiraDivisao padroesCnae texto with
         | some n => segmentoSpec n
         | none => "Outro") ∧
    extrair_segmento_do_cnae "CNAE principal: 47.51-2-01".data = "Varejo" ∧
    extrair_segmento_do_cnae "CNAE principal: 47.51-2/01".data = "Varejo" ∧
    extrair_segmento_do_cnae "CNAE principal: 86-1".data = "Saúde" ∧
    extrair_segmento_do_cnae "nenhum registro de atividade aqui".data = "Outro" := by
  refine ⟨?_, by decide, by decide, by decide, by decide⟩
  intro texto
  unfold extrair_segmento_do_cnae
  cases h : primeiraDivisao padroesCnae texto with
  | none => rfl
  | some n => simpa using classificaDivisao_eq_segmentoSpec n

/-! ## Claim C10: empty-extraction handling in the analyze loop -/

/-- C10: on both text routes (CNPJ-card and standard), a supported upload
whose extraction yields empty or whitespace-only text is recorded as a
`vazio` entry with length 0 and no category, contributes nothing to the
combined corpus, the card text or the registrato queue, and the loop
continues (returns `.ok`, not a request failure). -/
theorem C10_documento_vazio (st : EstadoAnalise) (f : Upload) (texto : String)
    (hsup : f.content_type ∈ tiposSuportados)
    (hex : f.extracao = .ok texto)
    (hvazio : pyStrip texto = "")
    (hrota : contem (pyLower f.filename) "cnpj" = true
       ∨ contem (pyLower f.filename) "cartao" = true
       ∨ contem (pyLower f.filename) "registrato" = false) :
    processarArquivo st f =
      .ok { st with processados :=
              st.processados ++ [⟨f.filename, .vazio, some 0, none⟩] } := by
  unfold processarArquivo
  rw [if_pos hsup]
  cases hc : contem (pyLower f.filename) "cnpj" <;>
    cases hca : contem (pyLower f.filename) "cartao"
  case false.false =>
      have hr : contem (pyLower f.filename) "registrato" = false := by
        rcases hrota with h | h | h
        · rw [hc] at h; exact absurd h (by simp)
        · rw [hca] at h; exact absurd h (by simp)
        · exact h
      simp [hc, hca, hr, hex, hvazio]
  all_goals simp [hc, hca, hex, hvazio]

/-- Witness for C10 at a concrete whitespace-only upload. -/
theorem C10_documento_vazio_witness :
    processarArquivo estadoInicialAnalise uploadVazio =
      .ok { estadoInicialAnalise with processados :=
              [⟨"relatorio_anual.pdf", .vazio, some 0, none⟩] } :=
  C10_documento_vazio estadoInicialAnalise uploadVazio "  \n \t "
    (by decide) rfl (by decide) (by decide)

/-! ## SCR helper lemmas -/

theorem msgVazio_head : msgVazio.data.head? = some 'D' := rfl

theorem msgErroExtracao_ne_vazio (e : PyErr) : msgErroExtracao e ≠ msgVazio := by
  intro h
  have h1 : (msgErroExtracao e).data.head? = some 'E' := by
    cases e <;> rfl
  rw [h, msgVazio_head] at h1
  exact absurd h1 (by decide)

theorem parseBR_sem_index (raw : String) : parseBR raw ≠ .error .indexError := by
  unfold parseBR
  dsimp only
  split_ifs with h1 h2
  · simp
  · simp
  · cases hpf : pyFloat (pyReplace (pyReplace (brLimpar raw) ['.'] []) [','] ['.']) <;>
      simp [hpf]

theorem dfVazio_false_de {df : DataFrame} (hl : 0 < df.rows.length)
    (hc : 0 < df.ncols) : dfVazio df = false := by
  unfold dfVazio
  have h1 : df.rows.isEmpty = false := by
    cases hrw : df.rows with
    | nil => rw [hrw] at hl; simp at hl
    | cons _ _ => rfl
  have h2 : (df.ncols == 0) = false := by
    cases hnc : df.ncols with
    | zero => rw [hnc] at hc; simp at hc
    | succ _ => rfl
  rw [h1, h2]
  rfl

theorem readCell_existe {df : DataFrame} (hrect : Retangular df) {i j : Nat}
    (hi : i < df.rows.length) (hj : j < df.ncols) :
    ∃ s, readCell df i j = .ok s := by
  cases hri : df.rows[i]? with
  | none =>
      rw [List.getElem?_eq_none_iff] at hri
      omega
  | some linha =>
      have hmem : linha ∈ df.rows := List.getElem?_mem hri
      have hlen : linha.length = df.ncols := hrect _ hmem
      have hred : readCell df i j
          = (match linha[j]? with
             | none => Except.error PyErr.indexError
             | some celula => Except.ok (celula.getD "0")) := by
        unfold readCell
        rw [hri]
      cases hlj : linha[j]? with
      | none =>
          rw [List.getElem?_eq_none_iff] at hlj
          omega
      | some celula =>
          rw [hlj] at hred
          exact ⟨celula.getD "0", hred⟩

theorem stepEmDia_sem_index {df : DataFrame} (hrect : Retangular df) :
    stepEmDia df ≠ .error .indexError := by
  unfold stepEmDia
  split_ifs with hg
  · obtain ⟨hg1, hg2⟩ := hg
    obtain ⟨s, hs⟩ := @readCell_existe df hrect 2 1 (by omega) (by omega)
    rw [hs]
    exact parseBR_sem_index s
  · simp

theorem stepVencida_sem_index {df : DataFrame} (hrect : Retangular df) :
    stepVencida df ≠ .error .indexError := by
  unfold stepVencida
  split_ifs with hg
  · obtain ⟨hg1, hg2⟩ := hg
    obtain ⟨s, hs⟩ := @readCell_existe df hrect 2 2 (by omega) (by omega)
    rw [hs]
    exact parseBR_sem_index s
  · simp

/-! ## Claim C1: debt_total = debt_current + debt_overdue -/

unseal Rat.add in
/-- C1 counterexample: on a grid whose current-debt cell parses to `100.50`
but whose overdue-debt cell raises during normalization, the extractor
returns early with `total_dividas` still `0`, different from the sum of the
two debt fields. -/
theorem C1_counterexample :
    (extract_scr_data_from_pdf dfCexC1 [] (some "registrato.pdf")).divida_em_dia
      = mkRat 201 2 ∧
    (extract_scr_data_from_pdf dfCexC1 [] (some "registrato.pdf")).divida_vencida = 0 ∧
    (extract_scr_data_from_pdf dfCexC1 [] (some "registrato.pdf")).total_dividas = 0 ∧
    (extract_scr_data_from_pdf dfCexC1 [] (some "registrato.pdf")).total_dividas
      ≠ (extract_scr_data_from_pdf dfCexC1 [] (some "registrato.pdf")).divida_em_dia
        + (extract_scr_data_from_pdf dfCexC1 [] (some "registrato.pdf")).divida_vencida := by
  decide

/-- C1 amended: the total-debt field equals current plus overdue on every
extraction in which the recorded error is absent or is the empty-grid error,
and also whenever the current-debt field is zero; the only violation is an
overdue-cell normalization failure after a nonzero current debt was parsed,
which returns early with the stale total `0`. -/
theorem C1_total_dividas_amended (df : DataFrame) (texto : List Char)
    (fn : Option String)
    (h : (extract_scr_data_from_pdf df texto fn).erro = none
       ∨ (extract_scr_data_from_pdf df texto fn).erro = some msgVazio
       ∨ (extract_scr_data_from_pdf df texto fn).divida_em_dia = 0) :
    (extract_scr_data_from_pdf df texto fn).total_dividas
      = (extract_scr_data_from_pdf df texto fn).divida_em_dia
        + (extract_scr_data_from_pdf df texto fn).divida_vencida := by
  cases hdf : dfVazio df with
  | true =>
      simp [extract_scr_data_from_pdf, hdf, resultadoInicial]
  | false =>
      cases hEm : stepEmDia df with
      | error e =>
          simp [extract_scr_data_from_pdf, hdf, innerBloco, hEm, resultadoInicial]
      | ok v1 =>
          cases hVen : stepVencida df with
          | ok v2 =>
              simp [extract_scr_data_from_pdf, hdf, innerBloco, hEm, hVen]
          | error e =>
              simp only [extract_scr_data_from_pdf, hdf, innerBloco, hEm, hVen,
                Bool.false_eq_true, if_false, if_true] at h ⊢
              rcases h with h | h | h
              · exact Option.noConfusion h
              · have h2 := Option.some.inj h
                exact absurd h2 (msgErroExtracao_ne_vazio e)
              · subst h
                simp [resultadoInicial]

unseal Rat.add in
/-- Witness for the amended C1 at a grid where both cells parse. -/
theorem C1_total_dividas_amended_witness :
    (extract_scr_data_from_pdf dfTesteC8 [] none).total_dividas
      = (extract_scr_data_from_pdf dfTesteC8 [] none).divida_em_dia
        + (extract_scr_data_from_pdf dfTesteC8 [] none).divida_vencida :=
  C1_total_dividas_amended dfTesteC8 [] none (by decide)

/-! ## Claim C8: totality of positional grid reads -/

/-- C8: the debt fields are read from 0-based positions (2,1) and (2,2) only
behind the row/column guards; a too-small grid leaves the corresponding field
at its default `0`; on rectangular frames neither step can raise an
`IndexError`; and an empty grid produces a fully populated default result
with the non-fatal recorded error instead of an exception. -/
theorem C8_leitura_grid (df : DataFrame) (texto : List Char) (fn : Option String)
    (hrect : Retangular df) :
    ((df.rows.length ≤ 2 ∨ df.ncols ≤ 1) →
       (extract_scr_data_from_pdf df texto fn).divida_em_dia = 0) ∧
    ((df.rows.length ≤ 2 ∨ df.ncols ≤ 2) →
       (extract_scr_data_from_pdf df texto fn).divida_vencida = 0) ∧
    stepEmDia df ≠ .error .indexError ∧
    stepVencida df ≠ .error .indexError ∧
    (dfVazio df = true →
       (extract_scr_data_from_pdf df texto fn).divida_em_dia = 0 ∧
       (extract_scr_data_from_pdf df texto fn).divida_vencida = 0 ∧
       (extract_scr_data_from_pdf df texto fn).total_dividas = 0 ∧
       (extract_scr_data_from_pdf df texto fn).erro = some msgVazio ∧
       (extract_scr_data_from_pdf df texto fn).planilha_gerada = none) ∧
    (∀ v : ℚ, 2 < df.rows.length → 1 < df.ncols →
       (readCell df 2 1).bind parseBR = .ok v →
       (extract_scr_data_from_pdf df texto fn).divida_em_dia = v) ∧
    (∀ w : ℚ, 2 < df.rows.length → 2 < df.ncols → (stepEmDia df).isOk = true →
       (readCell df 2 2).bind parseBR = .ok w →
       (extract_scr_data_from_pdf df texto fn).divida_vencida = w) := by
  refine ⟨?_, ?_, stepEmDia_sem_index hrect, stepVencida_sem_index hrect, ?_, ?_, ?_⟩
  · intro hguard
    have hEm : stepEmDia df = .ok 0 := by
      unfold stepEmDia
      rw [if_neg (by omega)]
    cases hdf : dfVazio df with
    | true => simp [extract_scr_data_from_pdf, hdf, resultadoInicial]
    | false =>
        cases hVen : stepVencida df with
        | error e =>
            simp [extract_scr_data_from_pdf, hdf, innerBloco, hEm, hVen]
        | ok v2 =>
            simp [extract_scr_data_from_pdf, hdf, innerBloco, hEm, hVen]
  · intro hguard
    have hVen : stepVencida df = .ok 0 := by
      unfold stepVencida
      rw [if_neg (by omega)]
    cases hdf : dfVazio df with
    | true => simp [extract_scr_data_from_pdf, hdf, resultadoInicial]
    | false =>
        cases hEm : stepEmDia df with
        | error e =>
            simp [extract_scr_data_from_pdf, hdf, innerBloco, hEm, resultadoInicial]
        | ok v1 =>
            simp [extract_scr_data_from_pdf, hdf, innerBloco, hEm, hVen]
  · intro hdf
    simp [extract_scr_data_from_pdf, hdf, resultadoInicial]
  · intro v hr hc hcell
    have hdf : dfVazio df = false := dfVazio_false_de (by omega) (by omega)
    have hEm : stepEmDia df = .ok v := by
      unfold stepEmDia
      rw [if_pos ⟨hr, hc⟩]
      exact hcell
    cases hVen : stepVencida df with
    | error e =>
        simp [extract_scr_data_from_pdf, hdf, innerBloco, hEm, hVen]
    | ok v2 =>
        simp [extract_scr_data_from_pdf, hdf, innerBloco, hEm, hVen]
  · intro w hr hc hEmOk hcell
    have hdf : dfVazio df = false := dfVazio_false_de (by omega) (by omega)
    obtain ⟨v1, hEm⟩ : ∃ v1, stepEmDia df = .ok v1 := by
      cases hEm : stepEmDia df with
      | error e => rw [hEm] at hEmOk; simp [Except.isOk, Except.toBool] at hEmOk
      | ok v1 => exact ⟨v1, rfl⟩
    have hVen : stepVencida df = .ok w := by
      unfold stepVencida
      rw [if_pos ⟨hr, hc⟩]
      exact hcell
    simp [extract_scr_data_from_pdf, hdf, innerBloco, hEm, hVen]

unseal Rat.add in
/-- Witness for C8 at a concrete rectangular 3×3 grid. -/
theorem C8_leitura_grid_witness :
    ((dfTesteC8.rows.length ≤ 2 ∨ dfTesteC8.ncols ≤ 1) →
       (extract_scr_data_from_pdf dfTesteC8 [] none).divida_em_dia = 0) ∧
    ((dfTesteC8.rows.length ≤ 2 ∨ dfTesteC8.ncols ≤ 2) →
       (extract_scr_data_from_pdf dfTesteC8 [] none).divida_vencida = 0) ∧
    stepEmDia dfTesteC8 ≠ .error .indexError ∧
    stepVencida dfTesteC8 ≠ .error .indexError ∧
    (dfVazio dfTesteC8 = true →
       (extract_scr_data_from_pdf dfTesteC8 [] none).divida_em_dia = 0 ∧
       (extract_scr_data_from_pdf dfTesteC8 [] none).divida_vencida = 0 ∧
       (extract_scr_data_from_pdf dfTesteC8 [] none).total_dividas = 0 ∧
       (extract_scr_data_from_pdf dfTesteC8 [] none).erro = some msgVazio ∧
       (extract_scr_data_from_pdf dfTesteC8 [] none).planilha_gerada = none) ∧
    (∀ v : ℚ, 2 < dfTesteC8.rows.length → 1 < dfTesteC8.ncols →
       (readCell dfTesteC8 2 1).bind parseBR = .ok v →
       (extract_scr_data_from_pdf dfTesteC8 [] none).divida_em_dia = v) ∧
    (∀ w : ℚ, 2 < dfTesteC8.rows.length → 2 < dfTesteC8.ncols →
       (stepEmDia dfTesteC8).isOk = true →
       (readCell dfTesteC8 2 2).bind parseBR = .ok w →
       (extract_scr_data_from_pdf dfTesteC8 [] none).divida_vencida = w) :=
  C8_leitura_grid dfTesteC8 [] none (by decide)

/-! ## Claim C6: identity-field capture -/

theorem encontrar_sem_rotulo {rotulo fonte : List Char}
    (h : contemL fonte rotulo = false) : encontrar rotulo fonte = "###".data := by
  unfold encontrar
  rw [primeiraOcorrencia_nao_contem h]

/-- The identity fields of the extractor result are exactly the sentinel-or-
captured values of `encontrar`, on every path of the extraction. -/
theorem extract_campos_empresa (df : DataFrame) (texto : List Char)
    (fn : Option String) :
    ((extract_scr_data_from_pdf df texto fn).empresa_nome
       = (if encontrar razaoLabel texto ≠ "###".data
          then String.mk (encontrar razaoLabel texto) else "Não identificado")) ∧
    ((extract_scr_data_from_pdf df texto fn).empresa_cnpj
       = (if encontrar cnpjLabel texto ≠ "###".data
          then String.mk (encontrar cnpjLabel texto) else "Não identificado")) := by
  cases hdf : dfVazio df with
  | true => constructor <;> simp [extract_scr_data_from_pdf, hdf]
  | false =>
      cases hEm : stepEmDia df with
      | error e =>
          constructor <;> simp [extract_scr_data_from_pdf, hdf, innerBloco, hEm]
      | ok v1 =>
          cases hVen : stepVencida df with
          | error e =>
              constructor <;>
                simp [extract_scr_data_from_pdf, hdf, innerBloco, hEm, hVen]
          | ok v2 =>
              constructor <;>
                simp [extract_scr_data_from_pdf, hdf, innerBloco, hEm, hVen]

/-- C6 counterexample: on the two-line text `"Razão Social: ACME\nCNPJ: 9\n"`
the claim (capture up to the next line break) demands `" ACME"`, but the
greedy DOTALL pattern captures up to the last line break of the document, so
the company-name field also swallows the whole second line. -/
theorem C6_counterexample :
    String.mk (capturaSpecProximaQuebra razaoLabel textoCexC6) = " ACME" ∧
    (extract_scr_data_from_pdf ⟨[], 0⟩ textoCexC6 none).empresa_nome
      ≠ " ACME" ∧
    (extract_scr_data_from_pdf ⟨[], 0⟩ textoCexC6 none).empresa_nome
      = " ACMECNPJ: 9" := by
  refine ⟨by decide, ?_, ?_⟩ <;> decide

/-- C6 amended: the match for a label anchor runs from the label's first
occurrence to the LAST line break of the raw text (the greedy DOTALL `.*`),
and the code then deletes every label occurrence and every line break from
it, so text after the first line break leaks into the field; a label that
never occurs (or has no line break after it) yields the sentinel, which the
extractor maps to "Não identificado", and a missing identity field never
raises. -/
theorem C6_identidade_amended :
    (∀ rotulo nome resto : List Char, rotulo ≠ [] →
       nome.all (fun c => !(c == '\n')) = true →
       contemL (nome ++ '\n' :: (resto ++ ['\n'])) rotulo = false →
       encontrar rotulo (rotulo ++ (nome ++ '\n' :: (resto ++ ['\n'])))
         = nome ++ resto.filter (fun c => !(c == '\n'))) ∧
    (∀ (df : DataFrame) (texto : List Char) (fn : Option String),
       contemL texto razaoLabel = false →
         (extract_scr_data_from_pdf df texto fn).empresa_nome = "Não identificado") ∧
    (∀ (df : DataFrame) (texto : List Char) (fn : Option String),
       contemL texto cnpjLabel = false →
         (extract_scr_data_from_pdf df texto fn).empresa_cnpj = "Não identificado") := by
  refine ⟨?_, ?_, ?_⟩
  · intro rotulo nome resto hrot hnome hnc
    have hassoc : rotulo ++ (nome ++ '\n' :: (resto ++ ['\n']))
        = (rotulo ++ (nome ++ '\n' :: resto)) ++ ['\n'] := by
      simp
    have hocc : primeiraOcorrencia
        (rotulo ++ (nome ++ '\n' :: (resto ++ ['\n']))) rotulo = some 0 :=
      primeiraOcorrencia_append_self rotulo _
    have huq : ultimaQuebra (rotulo ++ (nome ++ '\n' :: (resto ++ ['\n'])))
        = some (rotulo ++ (nome ++ '\n' :: resto)).length := by
      rw [hassoc]
      exact ultimaQuebra_final _
    have hfl : (rotulo ++ (nome ++ '\n' :: (resto ++ ['\n']))).length
        = (rotulo ++ (nome ++ '\n' :: resto)).length + 1 := by
      simp
      omega
    unfold encontrar
    rw [hocc, huq]
    dsimp only
    rw [if_pos (by simp only [List.length_append]; omega)]
    rw [List.drop_zero]
    rw [show (rotulo ++ (nome ++ '\n' :: resto)).length + 1 - 0
          = (rotulo ++ (nome ++ '\n' :: (resto ++ ['\n']))).length by omega]
    rw [List.take_length _]
    rw [pyReplace_prefixo _ [] hrot, List.nil_append,
      pyReplace_nao_contem [] hrot hnc, pyReplace_filtra]
    rw [List.filter_append]
    rw [List.filter_eq_self.mpr (by
      intro c hc
      exact List.all_eq_true.mp hnome c hc)]
    simp

  · intro df texto fn h
    have hen : encontrar razaoLabel texto = "###".data := encontrar_sem_rotulo h
    rw [(extract_campos_empresa df texto fn).1, hen]
    simp
  · intro df texto fn h
    have hen : encontrar cnpjLabel texto = "###".data := encontrar_sem_rotulo h
    rw [(extract_campos_empresa df texto fn).2, hen]
    simp

/-- Witness for the amended C6: the quantified parts applied at the concrete
two-line input (second line leaks into the captured name) and at a label-free
text. -/
theorem C6_identidade_amended_witness :
    encontrar razaoLabel
        (razaoLabel ++ (" ACME".data ++ '\n' :: ("CNPJ: 9".data ++ ['\n'])))
      = " ACME".data ++ "CNPJ: 9".data.filter (fun c => !(c == '\n')) ∧
    (extract_scr_data_from_pdf ⟨[], 0⟩ "texto sem anchoras".data none).empresa_nome
      = "Não identificado" :=
  ⟨C6_identidade_amended.1 razaoLabel " ACME".data "CNPJ: 9".data
      (by decide) (by decide) (by decide),
   C6_identidade_amended.2.1 ⟨[], 0⟩ "texto sem anchoras".data none (by decide)⟩

/-! ## Claim C2: token-budget assembler -/

theorem terminaCom_append (s m : String) : terminaCom (s ++ m) m = true := by
  unfold terminaCom
  rw [data_append, List.reverse_append]
  exact comecaL_append_self _ _

/-- Overflow behaviour of the assembler under any concatenative tokenizer
(`encode` distributes over append and is a left inverse of `decode`): when
the document tokens exceed a non-negative allowance, the truncated corpus
ends with the truncation marker and the total token count of system preamble,
user prefix, corpus and suffix is exactly the prompt budget PLUS the marker's
token count. -/
theorem montarPrompt_estouro {τ : Type} (encode : String → List τ)
    (decode : List τ → String)
    (h1 : ∀ a b : String, encode (a ++ b) = encode a ++ encode b)
    (h2 : ∀ l : List τ, encode (decode l) = l)
    (sp ct : String)
    (hpos : (0 : Int) ≤ tokensDisponiveis encode sp)
    (hover : ((encode ct).length : Int) > tokensDisponiveis encode sp) :
    (((encode sp).length : Int)
        + ((encode (montarPrompt encode decode sp ct).1).length : Int)
      = (LIMITE_PROMPT : Int) + ((encode marcadorTruncado).length : Int)) ∧
    terminaCom (montarPrompt encode decode sp ct).2 marcadorTruncado = true := by
  have hmp : montarPrompt encode decode sp ct
      = (prompt_fixo
           ++ (decode (pySlice (encode ct) (tokensDisponiveis encode sp))
                ++ marcadorTruncado)
           ++ prompt_final,
         decode (pySlice (encode ct) (tokensDisponiveis encode sp))
           ++ marcadorTruncado) := by
    simp only [montarPrompt]
    rw [if_pos hover]
  have hslice : (pySlice (encode ct) (tokensDisponiveis encode sp)).length
      = (tokensDisponiveis encode sp).toNat := by
    unfold pySlice
    rw [if_pos hpos, List.length_take]
    have hle : (tokensDisponiveis encode sp).toNat ≤ (encode ct).length := by
      omega
    omega
  constructor
  · rw [hmp]
    simp only [h1, h2, List.length_append]
    have hD : tokensDisponiveis encode sp
        = (LIMITE_PROMPT : Int) - ((encode sp).length : Int)
          - ((encode (prompt_fixo ++ prompt_final)).length : Int) := rfl
    have hF : (encode (prompt_fixo ++ prompt_final)).length
        = (encode prompt_fixo).length + (encode prompt_final).length := by
      rw [h1, List.length_append]
    rw [hslice]
    rw [hF] at hD
    push_cast
    omega
  · rw [hmp]
    exact terminaCom_append _ _

set_option maxRecDepth 8192 in
theorem tokensDisponiveisVazio : tokensDisponiveis encC "" = 111289 := by decide

theorem ctGrandeLen : (encC ctGrande).length = 111700 := by
  show (String.mk (List.replicate 111700 'a')).data.length = 111700
  rw [data_mk, List.length_replicate]

theorem ctGrandeEstoura : ((encC ctGrande).length : Int) > tokensDisponiveis encC "" := by
  rw [ctGrandeLen, tokensDisponiveisVazio]
  decide

theorem allowanceNaoNegativa : (0 : Int) ≤ tokensDisponiveis encC "" := by
  rw [tokensDisponiveisVazio]
  decide

/-- C2 counterexample: under the character tokenizer (one character per
token), the oversized corpus overflows the allowance, and after truncation
the assembler's appended marker pushes the total token count of system
preamble plus corpus plus fixed parts ABOVE the configured prompt budget,
contradicting the claim's bound. -/
theorem C2_counterexample :
    ((encC ctGrande).length : Int) > tokensDisponiveis encC "" ∧
    ¬ (((encC "").length : Int)
        + ((encC (montarPrompt encC decC "" ctGrande).1).length : Int)
        ≤ (LIMITE_PROMPT : Int)) := by
  refine ⟨ctGrandeEstoura, ?_⟩
  obtain ⟨heq, -⟩ := montarPrompt_estouro encC decC (fun _ _ => rfl) (fun _ => rfl)
    "" ctGrande allowanceNaoNegativa ctGrandeEstoura
  have hM : ((encC marcadorTruncado).length : Int) = 34 := by decide
  intro hle
  rw [heq] at hle
  omega

/-- C2 amended: when the document tokens exceed the (non-negative) allowance,
the assembler truncates the token sequence to the allowance and appends the
truncation marker, so the corpus ends with the marker; the total token count
of system preamble plus corpus plus fixed suffix then equals the prompt
budget PLUS the marker's own token count — i.e. it exceeds the configured
budget by exactly the marker, rather than staying within it. -/
theorem C2_token_budget_amended {τ : Type} (encode : String → List τ)
    (decode : List τ → String)
    (h1 : ∀ a b : String, encode (a ++ b) = encode a ++ encode b)
    (h2 : ∀ l : List τ, encode (decode l) = l)
    (sp ct : String)
    (hpos : (0 : Int) ≤ tokensDisponiveis encode sp)
    (hover : ((encode ct).length : Int) > tokensDisponiveis encode sp) :
    (((encode sp).length : Int)
        + ((encode (montarPrompt encode decode sp ct).1).length : Int)
      = (LIMITE_PROMPT : Int) + ((encode marcadorTruncado).length : Int)) ∧
    terminaCom (montarPrompt encode decode sp ct).2 marcadorTruncado = true :=
  montarPrompt_estouro encode decode h1 h2 sp ct hpos hover

/-- Witness for the amended C2 at the character tokenizer and the concrete
oversized corpus. -/
theorem C2_token_budget_amended_witness :
    (((encC "").length : Int)
        + ((encC (montarPrompt encC decC "" ctGrande).1).length : Int)
      = (LIMITE_PROMPT : Int) + ((encC marcadorTruncado).length : Int)) ∧
    terminaCom (montarPrompt encC decC "" ctGrande).2 marcadorTruncado = true :=
  C2_token_budget_amended encC decC (fun _ _ => rfl) (fun _ => rfl) "" ctGrande
    allowanceNaoNegativa ctGrandeEstoura

end CredAnalyzer
